import Mathlib

/-!
Verification development for the UPI fraud-detection repository's scoring
engine.  The definitions below are shallow embeddings of the Python source:

* `appScoreReasons` / `appCalculateFinalScore` / `appAnalyzeBatch`
  embed `FallbackScorer` in `app.py` (lines 126-194);
* `demoRules` / `demoCalculateFinalScore` / `demoAnalyzeBatch`
  embed `FallbackScorer` in `scripts/04_run_demo.py` (lines 27-78);
* `detectorRules` / `detectorPredictWith` / `simpleAnalyzeBatch`
  embed `RuleBasedFraudDetector` and `SimpleScorer` in
  `scripts/03_train_models.py` (lines 15-96).

Python dict records are embedded as a structure of `Option` fields:
`none` models an absent key, `Option.getD` models `dict.get(key, default)`.
Numeric feature values are embedded as rationals (Python ints/floats on the
inputs the rules compare are exact at the thresholds involved); rule points
and scores are integers, as in the source.
-/

/-- A Feature Record: a key/value transaction mapping.  A `none` field models
a key absent from the Python dict. -/
structure Txn where
  transaction_id : Option String := none
  amount : Option ℚ := none
  hour : Option ℚ := none
  txns_last_1h : Option ℚ := none
  is_new_recipient : Option ℚ := none
  amount_log : Option ℚ := none
deriving DecidableEq

/-- Risk level and action chain shared verbatim by `app.py` (lines 160-168)
and `04_run_demo.py` (lines 50-58): `score >= 70` is HIGH, else
`score >= 40` is MEDIUM, else LOW, each with its fixed action string. -/
def classifyRisk (score : ℤ) : String × String :=
  if score ≥ 70 then ("HIGH", "BLOCK - Requires additional verification")
  else if score ≥ 40 then ("MEDIUM", "WARN - Review recommended")
  else ("LOW", "ALLOW - Appears legitimate")

/-- The `RISK_LEVELS` table of `config.py` (lines 33-37), as
(name, lower, upper) triples.  It is defined in the repository but never
read by any scorer. -/
def RISK_LEVELS : List (String × ℤ × ℤ) :=
  [("LOW", 0, 40), ("MEDIUM", 40, 70), ("HIGH", 70, 100)]

/-- Result of `FallbackScorer.calculate_final_score` in `app.py`
(lines 170-180), including the constant breakdown fields. -/
structure AppResult where
  risk_score : ℤ
  risk_level : String
  suggested_action : String
  explanations : List String
  breakdown_rule_engine_score : ℤ
  breakdown_ml_probability : ℚ
  breakdown_anomaly_score : ℤ
deriving DecidableEq

/-- The sequential rule loop of `app.py` `calculate_final_score`
(lines 128-155): running `(score, reasons)` accumulator before clamping.
Note the `if amount > 50000 ... elif amount > 10000` chain: the two amount
rules are mutually exclusive here. -/
def appScoreReasons (t : Txn) : ℤ × List String :=
  let acc0 : ℤ × List String := (0, [])
  let amount := t.amount.getD 0
  let acc1 :=
    if amount > 50000 then (acc0.1 + 40, acc0.2 ++ ["Amount > ₹50,000"])
    else if amount > 10000 then (acc0.1 + 30, acc0.2 ++ ["Amount > ₹10,000"])
    else acc0
  let hour := t.hour.getD 12
  let acc2 :=
    if hour < 6 then (acc1.1 + 25, acc1.2 ++ ["Late night transaction (12AM-6AM)"])
    else acc1
  let txns := t.txns_last_1h.getD 0
  let acc3 :=
    if txns > 5 then
      (acc2.1 + 30, acc2.2 ++ ["High velocity (" ++ toString txns ++ " transactions/hour)"])
    else acc2
  let acc4 :=
    if t.is_new_recipient.getD 0 = 1 then
      (acc3.1 + 25, acc3.2 ++ ["First time sending to this recipient"])
    else acc3
  acc4

/-- Embedding of `FallbackScorer.calculate_final_score` in `app.py` (lines 127-180). -/
def appCalculateFinalScore (t : Txn) : AppResult :=
  let acc := appScoreReasons t
  let score := min acc.1 100
  let la := classifyRisk score
  { risk_score := score
    risk_level := la.1
    suggested_action := la.2
    explanations := acc.2
    breakdown_rule_engine_score := score
    breakdown_ml_probability := (1 : ℚ) / 2
    breakdown_anomaly_score := 0 }

/-- A (description, condition, points) rule, the shape of the rule tables in
`04_run_demo.py` (lines 29-36) and `03_train_models.py` (lines 18-24). -/
abbrev Rule := String × (Txn → Bool) × ℤ

/-- One iteration of the rule loops in `04_run_demo.py` (lines 42-45) and
`03_train_models.py` (lines 53-56): if the condition holds, add the points
and append the description. -/
def rulesStep (t : Txn) (acc : ℤ × List String) (r : Rule) : ℤ × List String :=
  if r.2.1 t then (acc.1 + r.2.2, acc.2 ++ [r.1]) else acc

/-- The `self.rules` table of the demo `FallbackScorer`
(`04_run_demo.py` lines 29-36). -/
def demoRules : List Rule :=
  [ ("Amount > ₹50,000", fun x => decide (x.amount.getD 0 > 50000), 40),
    ("Amount > ₹10,000", fun x => decide (x.amount.getD 0 > 10000), 30),
    ("Late night (12AM-6AM)", fun x => decide (x.hour.getD 12 < 6), 25),
    ("Suspicious hours (10PM-12AM)", fun x => decide (x.hour.getD 12 > 22), 20),
    ("New recipient", fun x => decide (x.is_new_recipient.getD 0 = 1), 25),
    ("High velocity", fun x => decide (x.txns_last_1h.getD 0 > 5), 30) ]

/-- The `(score, reasons)` accumulator of the demo scorer's rule loop
(`04_run_demo.py` lines 39-45), before clamping. -/
def demoScoreReasons (t : Txn) : ℤ × List String :=
  demoRules.foldl (rulesStep t) (0, [])

/-- Result of the demo `calculate_final_score` (`04_run_demo.py`
lines 60-65): note `explanations` keeps only the first three reasons. -/
structure DemoResult where
  risk_score : ℤ
  risk_level : String
  suggested_action : String
  explanations : List String
deriving DecidableEq

/-- Embedding of `FallbackScorer.calculate_final_score` in `04_run_demo.py`
(lines 38-65). -/
def demoCalculateFinalScore (t : Txn) : DemoResult :=
  let acc := demoScoreReasons t
  let score := min acc.1 100
  let la := classifyRisk score
  { risk_score := score
    risk_level := la.1
    suggested_action := la.2
    explanations := acc.2.take 3 }

/-- The `self.rules` table of `RuleBasedFraudDetector`
(`03_train_models.py` lines 18-24), conditions from the `_check_*` methods
(lines 33-46). -/
def detectorRules : List Rule :=
  [ ("Amount > ₹50,000", fun x => decide (x.amount.getD 0 > 50000), 40),
    ("Amount > ₹10,000", fun x => decide (x.amount.getD 0 > 10000), 30),
    ("Transaction during late night (12AM-6AM)", fun x => decide (x.hour.getD 12 < 6), 25),
    ("Transaction during suspicious hours (10PM-12AM)", fun x => decide (x.hour.getD 12 > 22), 20),
    ("Exceptionally high amount", fun x => decide (x.amount_log.getD 0 > 12), 35) ]

/-- The `self.thresholds` table installed by `RuleBasedFraudDetector.__init__`
(`03_train_models.py` lines 26-30).  The constructor assigns this table
unconditionally: it performs no validation of any kind. -/
structure Thresholds where
  high : ℤ
  medium : ℤ
  low : ℤ
deriving DecidableEq

/-- The values `{'HIGH': 70, 'MEDIUM': 40, 'LOW': 0}` hardcoded by
`RuleBasedFraudDetector.__init__`. -/
def detectorThresholds : Thresholds := ⟨70, 40, 0⟩

/-- The `(total_score, triggered_rules)` accumulator of
`RuleBasedFraudDetector.predict` (`03_train_models.py` lines 49-56),
before clamping. -/
def detectorScoreRules (t : Txn) : ℤ × List String :=
  detectorRules.foldl (rulesStep t) (0, [])

/-- Result of `RuleBasedFraudDetector.predict` (`03_train_models.py`
lines 72-77). -/
structure DetResult where
  risk_score : ℤ
  risk_level : String
  suggested_action : String
  rules_triggered : List String
deriving DecidableEq

/-- Embedding of `RuleBasedFraudDetector.predict` (`03_train_models.py` lines 48-77),
parameterized by the `self.thresholds` attribute the method reads
(the constructor installs `detectorThresholds`). -/
def detectorPredictWith (th : Thresholds) (t : Txn) : DetResult :=
  let acc := detectorScoreRules t
  let score := min acc.1 100
  let la :=
    if score ≥ th.high then ("HIGH", "BLOCK - Requires additional verification")
    else if score ≥ th.medium then ("MEDIUM", "WARN - Review recommended")
    else ("LOW", "ALLOW - Appears legitimate")
  { risk_score := score
    risk_level := la.1
    suggested_action := la.2
    rules_triggered := acc.2 }

/-- The `predict` method on the detector as constructed by `__init__`. -/
def detectorPredict (t : Txn) : DetResult :=
  detectorPredictWith detectorThresholds t

/-- Python's `f'TXN_{i:06d}'` (zero-pad to width 6), used by `app.py`
`analyze_batch` (line 187). -/
def txnId6 (i : ℕ) : String :=
  let s := toString i
  "TXN_" ++ String.mk (List.replicate (6 - s.length) '0') ++ s

/-- Python's `f'TXN_{i}'` (no padding), used by `04_run_demo.py`
`analyze_batch` (line 72) and `SimpleScorer.analyze_batch`
(`03_train_models.py` line 91). -/
def txnIdPlain (i : ℕ) : String := "TXN_" ++ toString i

/-- One output row of `app.py` `analyze_batch` (lines 186-193). -/
structure AppBatchRow where
  transaction_id : String
  amount : ℚ
  risk_score : ℤ
  risk_level : String
  suggested_action : String
  top_reason : String
deriving DecidableEq

/-- One output row of the demo `analyze_batch` (`04_run_demo.py`
lines 71-77). -/
structure DemoBatchRow where
  transaction_id : String
  risk_score : ℤ
  risk_level : String
  suggested_action : String
  top_reason : String
deriving DecidableEq

/-- One output row of `SimpleScorer.analyze_batch` (`03_train_models.py`
lines 90-95). -/
structure SimpleBatchRow where
  transaction_id : String
  risk_score : ℤ
  risk_level : String
  suggested_action : String
deriving DecidableEq

/-- The row built for index `i` and record `txn` by `app.py`
`analyze_batch` (lines 185-193). -/
def appBatchRow (i : ℕ) (txn : Txn) : AppBatchRow :=
  let result := appCalculateFinalScore txn
  { transaction_id := txn.transaction_id.getD (txnId6 i)
    amount := txn.amount.getD 0
    risk_score := result.risk_score
    risk_level := result.risk_level
    suggested_action := result.suggested_action
    top_reason := result.explanations.headD "No specific risk factors" }

/-- Embedding of `FallbackScorer.analyze_batch` in `app.py` (lines 182-194). -/
def appAnalyzeBatch (txns : List Txn) : List AppBatchRow :=
  txns.enum.map (fun p => appBatchRow p.1 p.2)

/-- The row built for index `i` and record `txn` by the demo
`analyze_batch` (`04_run_demo.py` lines 70-77). -/
def demoBatchRow (i : ℕ) (txn : Txn) : DemoBatchRow :=
  let result := demoCalculateFinalScore txn
  { transaction_id := txn.transaction_id.getD (txnIdPlain i)
    risk_score := result.risk_score
    risk_level := result.risk_level
    suggested_action := result.suggested_action
    top_reason := result.explanations.headD "No specific risk factors" }

/-- Embedding of `FallbackScorer.analyze_batch` in `04_run_demo.py` (lines 67-78). -/
def demoAnalyzeBatch (txns : List Txn) : List DemoBatchRow :=
  txns.enum.map (fun p => demoBatchRow p.1 p.2)

/-- The row built for index `i` and record `txn` by
`SimpleScorer.analyze_batch` (`03_train_models.py` lines 89-95). -/
def simpleBatchRow (i : ℕ) (txn : Txn) : SimpleBatchRow :=
  let result := detectorPredict txn
  { transaction_id := txn.transaction_id.getD (txnIdPlain i)
    risk_score := result.risk_score
    risk_level := result.risk_level
    suggested_action := result.suggested_action }

/-- Embedding of `SimpleScorer.analyze_batch` in `03_train_models.py` (lines 86-96). -/
def simpleAnalyzeBatch (txns : List Txn) : List SimpleBatchRow :=
  txns.enum.map (fun p => simpleBatchRow p.1 p.2)

/-- A batch input element for `app.py` `analyze_batch` that may fail
coercion: `none` models a list element that is not a key/value mapping,
on which `txn.get(...)` (line 132) raises `AttributeError`.  The loop has
no `try/except`, so the first such element aborts the whole call; the
`Except` result embeds that control flow. -/
def appBatchGo : ℕ → List (Option Txn) → Except String (List AppBatchRow)
  | _, [] => Except.ok []
  | _, none :: _ => Except.error "AttributeError"
  | i, some txn :: rest =>
      match appBatchGo (i + 1) rest with
      | Except.error e => Except.error e
      | Except.ok tail => Except.ok (appBatchRow i txn :: tail)

/-- The batch loop of `app.py` `analyze_batch`, starting at index 0. -/
def appAnalyzeBatchE (txns : List (Option Txn)) : Except String (List AppBatchRow) :=
  appBatchGo 0 txns

/-- The record with all feature fields present at the defaults the
evaluators substitute for absent keys: `amount` 0, `hour` 12,
`txns_last_1h` 0, `is_new_recipient` 0, `amount_log` 0 (the second
arguments of every `.get` call in the three scorers). -/
def fillDefaults (t : Txn) : Txn :=
  { transaction_id := t.transaction_id
    amount := some (t.amount.getD 0)
    hour := some (t.hour.getD 12)
    txns_last_1h := some (t.txns_last_1h.getD 0)
    is_new_recipient := some (t.is_new_recipient.getD 0)
    amount_log := some (t.amount_log.getD 0) }

/-- The triggered descriptions of a rule table in declaration order:
exactly the descriptions of the rules whose condition holds, nothing
else, in table order. -/
def triggeredDescriptions (rules : List Rule) (t : Txn) : List String :=
  rules.filterMap (fun r => if r.2.1 t then some r.1 else none)

/-- The micropay-scam demo scenario of `04_run_demo.py` (lines 147-152)
and `app.py` (lines 334-339). -/
def micropayTxn : Txn :=
  { amount := some 50000, hour := some 3, txns_last_1h := some 8,
    is_new_recipient := some 1 }

/-- A record whose only interesting field is an amount of 60,000, used to
exercise the amount rules in isolation. -/
def bigAmountTxn : Txn := { amount := some 60000 }

/-- The micropay scenario with the amount raised above the 50,000 threshold,
so that every demo rule except the suspicious-hours one triggers. -/
def allRulesTxn : Txn :=
  { amount := some 60000, hour := some 3, txns_last_1h := some 8,
    is_new_recipient := some 1 }

/-- A record sitting exactly on every comparison threshold: amount 10,000,
hour 22, five transactions in the last hour. -/
def boundaryTxn : Txn :=
  { amount := some 10000, hour := some 22, txns_last_1h := some 5,
    is_new_recipient := some 0 }

/-- A record sitting exactly on the 50,000 amount threshold and the hour-6
boundary. -/
def boundary50Txn : Txn :=
  { amount := some 50000, hour := some 6, txns_last_1h := some 5,
    is_new_recipient := some 0 }

/-- Unfolding the rule loop: folding `rulesStep` over a rule table adds the
sum of the triggered rules' points to the running score and appends the
triggered descriptions, in table order. -/
theorem rulesFoldl_spec (t : Txn) (rules : List Rule) (a : ℤ) (l : List String) :
    rules.foldl (rulesStep t) (a, l) =
      (a + (rules.map (fun r => if r.2.1 t then r.2.2 else 0)).sum,
       l ++ triggeredDescriptions rules t) := by
  induction rules generalizing a l with
  | nil => simp [triggeredDescriptions]
  | cons r rs ih =>
      cases hc : r.2.1 t with
      | true =>
          simp [List.foldl_cons, rulesStep, hc, ih, triggeredDescriptions,
            List.filterMap_cons, add_assoc]
      | false =>
          simp [List.foldl_cons, rulesStep, hc, ih, triggeredDescriptions,
            List.filterMap_cons]

/-- Contributions of a rule table with non-negative points sum to a
non-negative total. -/
theorem contribSum_nonneg (t : Txn) (rules : List Rule)
    (h : ∀ r ∈ rules, 0 ≤ r.2.2) :
    0 ≤ (rules.map (fun r => if r.2.1 t then r.2.2 else 0)).sum := by
  induction rules with
  | nil => simp
  | cons r rs ih =>
      simp only [List.map_cons, List.sum_cons]
      have h1 := h r (by simp)
      have h2 := ih (fun x hx => h x (by simp [hx]))
      split <;> omega

/-- The demo scorer's raw, unclamped score is non-negative. -/
theorem demoScoreReasons_nonneg (t : Txn) : 0 ≤ (demoScoreReasons t).1 := by
  rw [demoScoreReasons, rulesFoldl_spec]
  have := contribSum_nonneg t demoRules (by
    intro r hr
    simp only [demoRules, List.mem_cons, List.not_mem_nil, or_false] at hr
    rcases hr with rfl | rfl | rfl | rfl | rfl | rfl <;> norm_num)
  simpa using this

/-- The detector's raw, unclamped score is non-negative. -/
theorem detectorScoreRules_nonneg (t : Txn) : 0 ≤ (detectorScoreRules t).1 := by
  rw [detectorScoreRules, rulesFoldl_spec]
  have := contribSum_nonneg t detectorRules (by
    intro r hr
    simp only [detectorRules, List.mem_cons, List.not_mem_nil, or_false] at hr
    rcases hr with rfl | rfl | rfl | rfl | rfl <;> norm_num)
  simpa using this

/-- The web-app scorer's raw, unclamped score is non-negative. -/
theorem appScoreReasons_nonneg (t : Txn) : 0 ≤ (appScoreReasons t).1 := by
  unfold appScoreReasons
  by_cases h1 : t.amount.getD 0 > 50000 <;>
    by_cases h2 : t.amount.getD 0 > 10000 <;>
    by_cases h3 : t.hour.getD 12 < 6 <;>
    by_cases h4 : t.txns_last_1h.getD 0 > 5 <;>
    by_cases h5 : t.is_new_recipient.getD 0 = 1 <;>
    simp [h1, h2, h3, h4, h5]

/-- C1.  For every Feature Record, each of the three scorers computes its
`risk_score` by clamping the raw rule sum exactly once, with `min · 100`,
and the resulting Rule Set Score lies in the closed interval [0, 100]
regardless of how many evaluators fire. -/
theorem rule_set_score_in_range (t : Txn) :
    ((appCalculateFinalScore t).risk_score = min (appScoreReasons t).1 100
      ∧ 0 ≤ (appCalculateFinalScore t).risk_score
      ∧ (appCalculateFinalScore t).risk_score ≤ 100)
    ∧ ((demoCalculateFinalScore t).risk_score = min (demoScoreReasons t).1 100
      ∧ 0 ≤ (demoCalculateFinalScore t).risk_score
      ∧ (demoCalculateFinalScore t).risk_score ≤ 100)
    ∧ ((detectorPredict t).risk_score = min (detectorScoreRules t).1 100
      ∧ 0 ≤ (detectorPredict t).risk_score
      ∧ (detectorPredict t).risk_score ≤ 100) := by
  refine ⟨⟨rfl, ?_, ?_⟩, ⟨rfl, ?_, ?_⟩, ⟨rfl, ?_, ?_⟩⟩
  · exact le_min (appScoreReasons_nonneg t) (by norm_num)
  · exact min_le_right _ _
  · exact le_min (demoScoreReasons_nonneg t) (by norm_num)
  · exact min_le_right _ _
  · exact le_min (detectorScoreRules_nonneg t) (by norm_num)
  · exact min_le_right _ _

/-- C2.  For every score in [0,100] the classifier returns exactly one tier:
the three bands LOW = [0,40), MEDIUM = [40,70), HIGH = [70,100] partition
[0,100], and each tier carries its fixed action string.  These bands agree
with the `RISK_LEVELS` table of `config.py`. -/
theorem risk_classifier_partition (s : ℤ) (h0 : 0 ≤ s) (h1 : s ≤ 100) :
    (classifyRisk s = ("LOW", "ALLOW - Appears legitimate") ↔ 0 ≤ s ∧ s < 40)
    ∧ (classifyRisk s = ("MEDIUM", "WARN - Review recommended") ↔ 40 ≤ s ∧ s < 70)
    ∧ (classifyRisk s = ("HIGH", "BLOCK - Requires additional verification") ↔ 70 ≤ s ∧ s ≤ 100)
    ∧ RISK_LEVELS = [("LOW", 0, 40), ("MEDIUM", 40, 70), ("HIGH", 70, 100)] := by
  refine ⟨?_, ?_, ?_, rfl⟩ <;>
    · unfold classifyRisk
      split_ifs with ha hb <;> simp <;> omega

/-- Witness for C2 at the concrete score 50: MEDIUM band. -/
theorem risk_classifier_partition_witness :
    ((0:ℤ) ≤ 50 ∧ (50:ℤ) ≤ 100)
    ∧ ((classifyRisk 50 = ("LOW", "ALLOW - Appears legitimate") ↔ 0 ≤ (50:ℤ) ∧ (50:ℤ) < 40)
      ∧ (classifyRisk 50 = ("MEDIUM", "WARN - Review recommended") ↔ 40 ≤ (50:ℤ) ∧ (50:ℤ) < 70)
      ∧ (classifyRisk 50 = ("HIGH", "BLOCK - Requires additional verification") ↔ 70 ≤ (50:ℤ) ∧ (50:ℤ) ≤ 100)
      ∧ RISK_LEVELS = [("LOW", 0, 40), ("MEDIUM", 40, 70), ("HIGH", 70, 100)]) :=
  ⟨by norm_num, risk_classifier_partition 50 (by norm_num) (by norm_num)⟩

/-- Counterexample to C3.  In the `app.py` fallback scorer the two amount
checks form an `if/elif` chain, so a record with amount 60,000 (> 50,000)
receives only the 40-point contribution, not 40 + 30 = 70: the amount
evaluators are mutually exclusive there, not additive. -/
theorem app_amount_rules_exclusive_cex :
    (appScoreReasons bigAmountTxn).1 = 40
    ∧ (appScoreReasons bigAmountTxn).1 ≠ 70
    ∧ (appScoreReasons bigAmountTxn).2 = ["Amount > ₹50,000"] := by decide

/-- C3 amended.  For every record with amount strictly above 50,000, the demo
scorer and the rule-based detector add both amount contributions
(40 + 30 = 70) to the raw score, while the `app.py` scorer's `if/elif`
chain adds only the 40-point contribution. -/
theorem amount_rules_additivity (t : Txn) (h : t.amount.getD 0 > 50000) :
    (demoScoreReasons t).1 =
      40 + 30 + ((if t.hour.getD 12 < 6 then 25 else 0)
        + (if t.hour.getD 12 > 22 then 20 else 0)
        + (if t.is_new_recipient.getD 0 = 1 then 25 else 0)
        + (if t.txns_last_1h.getD 0 > 5 then 30 else 0))
    ∧ (detectorScoreRules t).1 =
      40 + 30 + ((if t.hour.getD 12 < 6 then 25 else 0)
        + (if t.hour.getD 12 > 22 then 20 else 0)
        + (if t.amount_log.getD 0 > 12 then 35 else 0))
    ∧ (appScoreReasons t).1 =
      40 + ((if t.hour.getD 12 < 6 then 25 else 0)
        + (if t.txns_last_1h.getD 0 > 5 then 30 else 0)
        + (if t.is_new_recipient.getD 0 = 1 then 25 else 0)) := by
  have h10 : t.amount.getD 0 > 10000 := lt_trans (by norm_num) h
  refine ⟨?_, ?_, ?_⟩
  · rw [demoScoreReasons, rulesFoldl_spec]
    simp [demoRules, h, h10]
    ring
  · rw [detectorScoreRules, rulesFoldl_spec]
    simp [detectorRules, h, h10]
    ring
  · unfold appScoreReasons
    by_cases h3 : t.hour.getD 12 < 6 <;>
      by_cases h4 : t.txns_last_1h.getD 0 > 5 <;>
      by_cases h5 : t.is_new_recipient.getD 0 = 1 <;>
      simp [h, h10, h3, h4, h5]

/-- Witness for the amended C3, at the concrete record with amount 60,000
and every other field absent. -/
theorem amount_rules_additivity_witness :
    (bigAmountTxn.amount.getD 0 > 50000)
    ∧ ((demoScoreReasons bigAmountTxn).1 =
        40 + 30 + ((if bigAmountTxn.hour.getD 12 < 6 then 25 else 0)
          + (if bigAmountTxn.hour.getD 12 > 22 then 20 else 0)
          + (if bigAmountTxn.is_new_recipient.getD 0 = 1 then 25 else 0)
          + (if bigAmountTxn.txns_last_1h.getD 0 > 5 then 30 else 0))
      ∧ (detectorScoreRules bigAmountTxn).1 =
        40 + 30 + ((if bigAmountTxn.hour.getD 12 < 6 then 25 else 0)
          + (if bigAmountTxn.hour.getD 12 > 22 then 20 else 0)
          + (if bigAmountTxn.amount_log.getD 0 > 12 then 35 else 0))
      ∧ (appScoreReasons bigAmountTxn).1 =
        40 + ((if bigAmountTxn.hour.getD 12 < 6 then 25 else 0)
          + (if bigAmountTxn.txns_last_1h.getD 0 > 5 then 30 else 0)
          + (if bigAmountTxn.is_new_recipient.getD 0 = 1 then 25 else 0))) :=
  ⟨by decide, amount_rules_additivity bigAmountTxn (by decide)⟩

/-- Counterexample to C4.  On the scenario record the strict comparison
`50000 > 50000` is false, so the amount>50,000 evaluator does not fire:
the raw sum is 110 (30 + 25 + 30 + 25), not 120, in both the demo scorer
and the `app.py` scorer. -/
theorem micropay_raw_sum_cex :
    (demoScoreReasons micropayTxn).1 = 110
    ∧ (demoScoreReasons micropayTxn).1 ≠ 120
    ∧ "Amount > ₹50,000" ∉ (demoScoreReasons micropayTxn).2
    ∧ (appScoreReasons micropayTxn).1 = 110
    ∧ "Amount > ₹50,000" ∉ (appScoreReasons micropayTxn).2 := by decide

/-- C4 amended.  The scenario {amount 50000, hour 3, txns_last_1h 8,
is_new_recipient 1} triggers the amount>10,000 evaluator (30), hour<6 (25),
high velocity (30) and new recipient (25) for a raw sum of 110, clamped to
a final score of 100, tier HIGH, action "BLOCK - Requires additional
verification", in both the demo scorer and the `app.py` scorer. -/
theorem micropay_scenario_amended :
    (demoScoreReasons micropayTxn) =
      (110, ["Amount > ₹10,000", "Late night (12AM-6AM)", "New recipient", "High velocity"])
    ∧ (demoCalculateFinalScore micropayTxn).risk_score = 100
    ∧ (demoCalculateFinalScore micropayTxn).risk_level = "HIGH"
    ∧ (demoCalculateFinalScore micropayTxn).suggested_action
        = "BLOCK - Requires additional verification"
    ∧ (appScoreReasons micropayTxn) =
      (110, ["Amount > ₹10,000", "Late night transaction (12AM-6AM)",
             "High velocity (8 transactions/hour)", "First time sending to this recipient"])
    ∧ (appCalculateFinalScore micropayTxn).risk_score = 100
    ∧ (appCalculateFinalScore micropayTxn).risk_level = "HIGH"
    ∧ (appCalculateFinalScore micropayTxn).suggested_action
        = "BLOCK - Requires additional verification" := by decide

/-- C5.  Scoring is total and a missing field never changes the outcome
relative to supplying that evaluator's neutral default explicitly:
`amount` defaults to 0, `hour` to 12, `txns_last_1h` to 0,
`is_new_recipient` to 0 and `amount_log` to 0, in all three scorers.
In particular scoring never reaches an error branch on any key/value
record: the embedded scorers are total functions. -/
theorem missing_fields_use_defaults (t : Txn) :
    appCalculateFinalScore t = appCalculateFinalScore (fillDefaults t)
    ∧ demoCalculateFinalScore t = demoCalculateFinalScore (fillDefaults t)
    ∧ detectorPredict t = detectorPredict (fillDefaults t)
    ∧ fillDefaults {} =
      { transaction_id := none, amount := some 0, hour := some 12,
        txns_last_1h := some 0, is_new_recipient := some 0, amount_log := some 0 } :=
  ⟨rfl, rfl, rfl, rfl⟩

/-- Membership in the triggered-description list of a rule table: a string
is listed exactly when some rule carries it as description and fires. -/
theorem mem_triggeredDescriptions (rules : List Rule) (t : Txn) (s : String) :
    s ∈ triggeredDescriptions rules t ↔ ∃ r ∈ rules, r.2.1 t = true ∧ r.1 = s := by
  simp only [triggeredDescriptions, List.mem_filterMap]
  constructor
  · rintro ⟨r, hr, hsome⟩
    by_cases hc : r.2.1 t
    · exact ⟨r, hr, hc, by simpa [hc] using hsome⟩
    · simp [hc] at hsome
  · rintro ⟨r, hr, hc, rfl⟩
    exact ⟨r, hr, by simp [hc]⟩

/-- Counterexample to C6.  On a record triggering five demo rules, the demo
scorer's `explanations` keeps only the first three triggered descriptions:
the high-velocity evaluator triggers but its description is absent. -/
theorem demo_explanations_truncated_cex :
    (demoScoreReasons allRulesTxn).2 =
      ["Amount > ₹50,000", "Amount > ₹10,000", "Late night (12AM-6AM)",
       "New recipient", "High velocity"]
    ∧ (demoCalculateFinalScore allRulesTxn).explanations =
      ["Amount > ₹50,000", "Amount > ₹10,000", "Late night (12AM-6AM)"]
    ∧ "High velocity" ∈ (demoScoreReasons allRulesTxn).2
    ∧ "High velocity" ∉ (demoCalculateFinalScore allRulesTxn).explanations := by
  decide

/-- C6 amended.  The `app.py` scorer's `explanations` list contains the
description of every triggered evaluator and nothing else, in evaluator
declaration order (with the two amount conditions forming one `if/elif`
evaluator), defaulting to the empty list; the demo scorer instead returns
only the first three triggered descriptions, still in declaration order. -/
theorem explanations_declaration_order (t : Txn) :
    (appCalculateFinalScore t).explanations =
      (if t.amount.getD 0 > 50000 then ["Amount > ₹50,000"]
       else if t.amount.getD 0 > 10000 then ["Amount > ₹10,000"] else [])
      ++ (if t.hour.getD 12 < 6 then ["Late night transaction (12AM-6AM)"] else [])
      ++ (if t.txns_last_1h.getD 0 > 5 then
            ["High velocity (" ++ toString (t.txns_last_1h.getD 0) ++ " transactions/hour)"]
          else [])
      ++ (if t.is_new_recipient.getD 0 = 1 then ["First time sending to this recipient"] else [])
    ∧ (demoScoreReasons t).2 = triggeredDescriptions demoRules t
    ∧ (demoCalculateFinalScore t).explanations = (triggeredDescriptions demoRules t).take 3 := by
  have hdemo : (demoScoreReasons t).2 = triggeredDescriptions demoRules t := by
    rw [demoScoreReasons, rulesFoldl_spec]
    simp
  refine ⟨?_, hdemo, ?_⟩
  · show (appScoreReasons t).2 = _
    unfold appScoreReasons
    by_cases h1 : t.amount.getD 0 > 50000 <;>
      by_cases h2 : t.amount.getD 0 > 10000 <;>
      by_cases h3 : t.hour.getD 12 < 6 <;>
      by_cases h4 : t.txns_last_1h.getD 0 > 5 <;>
      by_cases h5 : t.is_new_recipient.getD 0 = 1 <;>
      simp [h1, h2, h3, h4, h5]
  · show (demoScoreReasons t).2.take 3 = _
    rw [hdemo]

/-- Processing a batch of records that all coerce never fails and yields one
row per record, offset by the starting index. -/
theorem appBatchGo_map_some (txns : List Txn) (i : ℕ) :
    appBatchGo i (txns.map some) =
      Except.ok ((txns.enumFrom i).map fun p => appBatchRow p.1 p.2) := by
  induction txns generalizing i with
  | nil => rfl
  | cons a l ih => simp [appBatchGo, List.enumFrom, ih]

/-- A batch containing any uncoercible element makes the whole loop raise. -/
theorem appBatchGo_error (l : List (Option Txn)) (i : ℕ) (h : none ∈ l) :
    appBatchGo i l = Except.error "AttributeError" := by
  induction l generalizing i with
  | nil => simp at h
  | cons a rest ih =>
      cases a with
      | none => rfl
      | some txn =>
          have hm : none ∈ rest := by simpa using h
          simp [appBatchGo, ih (i + 1) hm]

/-- A batch of 50 records of which the last 5 cannot be coerced to Feature
Records. -/
def badBatch : List (Option Txn) := List.replicate 45 (some ({} : Txn)) ++ List.replicate 5 none

/-- Counterexample to C7.  On a batch of 50 records with 5 uncoercible
entries, `analyze_batch` does not return 45 results and an `unprocessed`
count: the loop has no per-record error handling, so the whole call
raises and aborts. -/
theorem batch_malformed_aborts_cex :
    badBatch.length = 50
    ∧ appAnalyzeBatchE badBatch = Except.error "AttributeError" := by
  refine ⟨by decide, ?_⟩
  show appBatchGo 0 badBatch = Except.error "AttributeError"
  exact appBatchGo_error badBatch 0 (by decide)

/-- C7 amended.  `analyze_batch` has no skip-and-count semantics: on a batch
whose records all coerce it returns exactly one result row per input (so a
50-record batch yields 50 rows, never 45), and a batch containing any
uncoercible record makes the whole call raise `AttributeError`; no
`unprocessed` counter exists. -/
theorem batch_no_skip_semantics (txns : List Txn) (l : List (Option Txn))
    (h : none ∈ l) :
    appAnalyzeBatchE (txns.map some) = Except.ok (appAnalyzeBatch txns)
    ∧ (appAnalyzeBatch txns).length = txns.length
    ∧ (demoAnalyzeBatch txns).length = txns.length
    ∧ appAnalyzeBatchE l = Except.error "AttributeError" := by
  refine ⟨?_, ?_, ?_, appBatchGo_error l 0 h⟩
  · show appBatchGo 0 (txns.map some) = _
    rw [appBatchGo_map_some]
    rfl
  · simp [appAnalyzeBatch]
  · simp [demoAnalyzeBatch]

/-- Witness for the amended C7 on a singleton good batch and a singleton bad
batch. -/
theorem batch_no_skip_semantics_witness :
    (none ∈ ([none] : List (Option Txn)))
    ∧ (appAnalyzeBatchE (([{}] : List Txn).map some) = Except.ok (appAnalyzeBatch [{}])
      ∧ (appAnalyzeBatch [{}]).length = ([{}] : List Txn).length
      ∧ (demoAnalyzeBatch [{}]).length = ([{}] : List Txn).length
      ∧ appAnalyzeBatchE [none] = Except.error "AttributeError") :=
  ⟨by decide, batch_no_skip_semantics [{}] [none] (by decide)⟩

/-- A record whose raw rule score is 30, inside the overlap of the malformed
bands used in the C8 counterexample. -/
def overlapTxn : Txn := { amount := some 20000 }

/-- Counterexample to C8.  No startup validation of the score bands exists:
`RuleBasedFraudDetector.__init__` installs its threshold table unchecked,
nothing raises a `ConfigurationError` anywhere in the repository, and with
a malformed table (HIGH threshold 30 below MEDIUM threshold 40, so the
bands overlap) `predict` still happily serves a scoring request. -/
theorem no_band_validation_cex :
    (detectorPredictWith ⟨30, 40, 0⟩ overlapTxn).risk_score = 30
    ∧ (detectorPredictWith ⟨30, 40, 0⟩ overlapTxn).risk_level = "HIGH"
    ∧ (detectorPredictWith ⟨30, 40, 0⟩ overlapTxn).suggested_action
        = "BLOCK - Requires additional verification" := by decide

/-- C8 amended.  The detector performs no configuration validation: its
constructor installs the threshold table unchecked (`detectorPredict` is
exactly `detectorPredictWith detectorThresholds`), and `predict` serves a
classification for every record under every threshold table, malformed or
not, always answering one of the three tiers. -/
theorem classifier_serves_any_thresholds (th : Thresholds) (t : Txn) :
    ((detectorPredictWith th t).risk_level = "HIGH"
      ∨ (detectorPredictWith th t).risk_level = "MEDIUM"
      ∨ (detectorPredictWith th t).risk_level = "LOW")
    ∧ detectorPredict t = detectorPredictWith detectorThresholds t := by
  refine ⟨?_, rfl⟩
  by_cases hH : min (detectorScoreRules t).1 100 ≥ th.high
  · left
    simp [detectorPredictWith, hH]
  · by_cases hM : min (detectorScoreRules t).1 100 ≥ th.medium
    · right; left
      simp [detectorPredictWith, hH, hM]
    · right; right
      simp [detectorPredictWith, hH, hM]

/-- Counterexample to C9.  The demo script's and `SimpleScorer`'s
`analyze_batch` assign the synthetic identifier `TXN_<index>` with no zero
padding: the record at index 3 receives `TXN_3`, not `TXN_000003`. -/
theorem txn_id_unpadded_cex :
    ((demoAnalyzeBatch (List.replicate 4 ({} : Txn))).map fun r => r.transaction_id)
      = ["TXN_0", "TXN_1", "TXN_2", "TXN_3"]
    ∧ ((simpleAnalyzeBatch (List.replicate 4 ({} : Txn))).map fun r => r.transaction_id)
      = ["TXN_0", "TXN_1", "TXN_2", "TXN_3"]
    ∧ "TXN_3" ≠ "TXN_000003" := by decide

/-- C9 amended.  A record lacking a `transaction_id` is assigned a synthetic
identifier deterministic in its input position: `app.py`'s batch evaluator
zero-pads it to six digits (`TXN_000003` at index 3), while the demo
script's and `SimpleScorer`'s batch evaluators use the unpadded index
(`TXN_3` at index 3). -/
theorem txn_id_assignment (txns : List Txn) (i : ℕ) (txn : Txn)
    (hget : txns[i]? = some txn) (hid : txn.transaction_id = none) :
    ((appAnalyzeBatch txns)[i]?).map (fun r => r.transaction_id) = some (txnId6 i)
    ∧ ((demoAnalyzeBatch txns)[i]?).map (fun r => r.transaction_id) = some (txnIdPlain i)
    ∧ ((simpleAnalyzeBatch txns)[i]?).map (fun r => r.transaction_id) = some (txnIdPlain i)
    ∧ txnId6 3 = "TXN_000003" ∧ txnIdPlain 3 = "TXN_3" := by
  refine ⟨?_, ?_, ?_, by decide, by decide⟩ <;>
    · simp [appAnalyzeBatch, demoAnalyzeBatch, simpleAnalyzeBatch, List.getElem?_map,
        List.getElem?_enum, appBatchRow, demoBatchRow, simpleBatchRow]
      exact ⟨txn, hget, by simp [hid]⟩

/-- Witness for the amended C9 on a singleton batch whose record has no
`transaction_id`. -/
theorem txn_id_assignment_witness :
    (([({} : Txn)] : List Txn)[0]? = some ({} : Txn))
    ∧ (({} : Txn).transaction_id = none)
    ∧ (((appAnalyzeBatch [({} : Txn)])[0]?).map (fun r => r.transaction_id)
        = some (txnId6 0)
      ∧ ((demoAnalyzeBatch [({} : Txn)])[0]?).map (fun r => r.transaction_id)
        = some (txnIdPlain 0)
      ∧ ((simpleAnalyzeBatch [({} : Txn)])[0]?).map (fun r => r.transaction_id)
        = some (txnIdPlain 0)
      ∧ txnId6 3 = "TXN_000003" ∧ txnIdPlain 3 = "TXN_3") :=
  ⟨by decide, rfl, txn_id_assignment [({} : Txn)] 0 ({} : Txn) (by decide) rfl⟩

/-- C10.  Every evaluator threshold comparison is strict: each demo rule's
description is triggered exactly when the strict inequality holds, so a
record sitting exactly on a threshold (amount 50,000 or 10,000, hour 6 or
22, five transactions in the last hour) gets no contribution from the
corresponding evaluator; on the all-boundary records every scorer's raw
sum and reason list stay at the values of the untriggered rules alone. -/
theorem strict_threshold_comparisons (t : Txn) :
    ("Amount > ₹50,000" ∈ triggeredDescriptions demoRules t ↔ t.amount.getD 0 > 50000)
    ∧ ("Amount > ₹10,000" ∈ triggeredDescriptions demoRules t ↔ t.amount.getD 0 > 10000)
    ∧ ("Late night (12AM-6AM)" ∈ triggeredDescriptions demoRules t ↔ t.hour.getD 12 < 6)
    ∧ ("Suspicious hours (10PM-12AM)" ∈ triggeredDescriptions demoRules t ↔ t.hour.getD 12 > 22)
    ∧ ("High velocity" ∈ triggeredDescriptions demoRules t ↔ t.txns_last_1h.getD 0 > 5)
    ∧ demoScoreReasons boundaryTxn = (0, [])
    ∧ appScoreReasons boundaryTxn = (0, [])
    ∧ detectorScoreRules boundaryTxn = (0, [])
    ∧ demoScoreReasons boundary50Txn = (30, ["Amount > ₹10,000"])
    ∧ appScoreReasons boundary50Txn = (30, ["Amount > ₹10,000"]) := by
  refine ⟨?_, ?_, ?_, ?_, ?_, by decide, by decide, by decide, by decide, by decide⟩ <;>
    · rw [mem_triggeredDescriptions]
      simp +decide [demoRules]
